import Mathlib

/-!
Shallow embedding of `Source/Extensibility/EvalWrapper/EvalExtendedWrapper.cpp`
(managed C++/CLI wrapper around the native `IEvaluateModelExtended` engine).

The wrapper is interop glue: it owns one native engine handle, exposes
CreateNetwork / GetInputSchema / GetOutputSchema / StartForwardEvaluation /
ForwardPass / disposal, and translates native C++ exceptions into managed
CNTK exception types.  The native engine itself is external; it is modelled
here as an abstract record of behaviours (`Engine`), and each native call the
wrapper makes is recorded in an observable log so that claims of the form
"the native engine is not invoked" can be stated.
-/

set_option autoImplicit false

namespace EvalWrapper

/-- Native C++ exceptions as discriminated by the wrapper's
`GetCustomException` (source lines 375-401).  The dispatch there uses
`typeid` equality, i.e. exact dynamic-type identity, so the five branches are
mutually exclusive and are modelled as constructors of an inductive type.
The three `ExceptionWithCallStack` instantiations carry a call-stack string
(`CallStack()`); `bad_alloc` and all remaining `std::exception`s carry only
their `what()` message. -/
inductive NativeExc where
  | ewcsRuntimeError (msg callstack : String)
  | ewcsLogicError (msg callstack : String)
  | ewcsInvalidArgument (msg callstack : String)
  | badAlloc (msg : String)
  | otherStd (msg : String)
deriving DecidableEq

/-- The `what()` message of a native exception. -/
def NativeExc.what : NativeExc → String
  | .ewcsRuntimeError m _ => m
  | .ewcsLogicError m _ => m
  | .ewcsInvalidArgument m _ => m
  | .badAlloc m => m
  | .otherStd m => m

/-- The call-stack string a native exception carries, when its type carries
one (`ExceptionWithCallStack<...>::CallStack()`), and `none` otherwise. -/
def NativeExc.carriedCallStack : NativeExc → Option String
  | .ewcsRuntimeError _ cs => some cs
  | .ewcsLogicError _ cs => some cs
  | .ewcsInvalidArgument _ cs => some cs
  | .badAlloc _ => none
  | .otherStd _ => none

/-- Managed CNTK exception types (`CNTKException.h` hierarchy) as constructed
by the wrapper.  `CNTKRuntimeException` / `CNTKLogicErrorException` /
`CNTKInvalidArgumentException` are built with a message and a call-stack
string; `CNTKBadAllocException` and the base `CNTKException` with a message
only. -/
inductive CNTKExc where
  | cntkRuntimeException (msg callstack : String)
  | cntkLogicErrorException (msg callstack : String)
  | cntkInvalidArgumentException (msg callstack : String)
  | cntkBadAllocException (msg : String)
  | cntkException (msg : String)
deriving DecidableEq

/-- Message payload of a managed CNTK exception. -/
def CNTKExc.message : CNTKExc → String
  | .cntkRuntimeException m _ => m
  | .cntkLogicErrorException m _ => m
  | .cntkInvalidArgumentException m _ => m
  | .cntkBadAllocException m => m
  | .cntkException m => m

/-- Call-stack payload of a managed CNTK exception, `none` when the
exception kind has no call-stack argument. -/
def CNTKExc.callStack : CNTKExc → Option String
  | .cntkRuntimeException _ cs => some cs
  | .cntkLogicErrorException _ cs => some cs
  | .cntkInvalidArgumentException _ cs => some cs
  | .cntkBadAllocException _ => none
  | .cntkException _ => none

/-- The five documented failure kinds of the exception-translation table. -/
inductive FailureKind where
  | runtimeFailure
  | logicFailure
  | invalidArgumentFailure
  | outOfMemoryFailure
  | genericFailure
deriving DecidableEq

/-- Kind of a managed CNTK exception. -/
def CNTKExc.kind : CNTKExc → FailureKind
  | .cntkRuntimeException _ _ => .runtimeFailure
  | .cntkLogicErrorException _ _ => .logicFailure
  | .cntkInvalidArgumentException _ _ => .invalidArgumentFailure
  | .cntkBadAllocException _ => .outOfMemoryFailure
  | .cntkException _ => .genericFailure

/-- Documented target kind of a native exception category (the table in the
specification: runtime error, logic error, invalid argument, allocation
failure, anything else). -/
def NativeExc.documentedKind : NativeExc → FailureKind
  | .ewcsRuntimeError _ _ => .runtimeFailure
  | .ewcsLogicError _ _ => .logicFailure
  | .ewcsInvalidArgument _ _ => .invalidArgumentFailure
  | .badAlloc _ => .outOfMemoryFailure
  | .otherStd _ => .genericFailure

/-- `IEvaluateModelExtendedManaged::GetCustomException` (source lines
375-401): `typeid`-exact dispatch over the native exception, building the
corresponding managed exception.  The runtime branch passes `rich.what()`,
the logic / invalid-argument branches pass `ex.what()` (the same string,
since `rich` and `ex` are the same object), and each of the three rich
branches attaches `rich.CallStack()`; `bad_alloc` and the fallback pass only
`ex.what()`. -/
def getCustomException : NativeExc → CNTKExc
  | .ewcsRuntimeError m cs => .cntkRuntimeException m cs
  | .ewcsLogicError m cs => .cntkLogicErrorException m cs
  | .ewcsInvalidArgument m cs => .cntkInvalidArgumentException m cs
  | .badAlloc m => .cntkBadAllocException m
  | .otherStd m => .cntkException m

/-- Managed `VariableLayout::DataType` (source lines 100-104). -/
inductive ManagedDataType where
  | Float32
  | Float64
deriving DecidableEq

/-- Managed `VariableLayout::StorageType` (source lines 106-111).
`Undetermined` is the first enumerator, i.e. the zero value a
default-constructed managed `VariableLayout` field holds. -/
inductive ManagedStorageType where
  | Undetermined
  | Dense
  | Sparse
deriving DecidableEq

/-- Native `Microsoft::MSR::CNTK::VariableLayout::DataType` (declared in
`Eval.h`; the wrapper's `GetDataType` switch shows the same two values). -/
inductive NativeDataType where
  | Float32
  | Float64
deriving DecidableEq

/-- Native `Microsoft::MSR::CNTK::VariableLayout::StorageType` (declared in
`Eval.h`; the wrapper's `GetStorageType` switch shows the same three
values). -/
inductive NativeStorageType where
  | Undetermined
  | Dense
  | Sparse
deriving DecidableEq

/-- One native layout entry as produced by the engine's
`GetInputSchema` / `GetOutputSchema`: name, element data type, storage
type and flattened per-step element count. -/
structure NativeVariableLayout where
  m_name : String
  m_dataType : NativeDataType
  m_storageType : NativeStorageType
  m_numElements : Nat
deriving DecidableEq

/-- Managed `VariableLayout` (source lines 98-123). -/
structure VariableLayout where
  m_name : String
  m_dataType : ManagedDataType
  m_storageType : ManagedStorageType
  m_numElements : Nat
deriving DecidableEq

/-- A freshly `gcnew`ed managed `VariableLayout`: all fields
zero-initialised, in particular `m_storageType` is the zero enumerator
`Undetermined` and `m_dataType` the zero enumerator `Float32`. -/
def VariableLayout.freshNew : VariableLayout :=
  { m_name := "", m_dataType := .Float32,
    m_storageType := .Undetermined, m_numElements := 0 }

/-- `IEvaluateModelExtendedManaged::GetDataType` (source lines 420-431):
identity conversion of the data-type enum. -/
def getDataType : NativeDataType → ManagedDataType
  | .Float32 => .Float32
  | .Float64 => .Float64

/-- `IEvaluateModelExtendedManaged::GetStorageType` (source lines 433-446):
identity conversion of the storage-type enum.  Note: this helper is never
called by the schema-conversion loops in the source. -/
def getStorageType : NativeStorageType → ManagedStorageType
  | .Undetermined => .Undetermined
  | .Dense => .Dense
  | .Sparse => .Sparse

/-- Body of the conversion loops in `GetOutputSchema` (lines 228-236) and
`GetInputSchema` (lines 275-283): `gcnew VariableLayout()` followed by
assignments to `m_name`, `m_dataType` and `m_numElements` only —
`m_storageType` is never assigned and keeps its default. -/
def convertLayout (lay : NativeVariableLayout) : VariableLayout :=
  { VariableLayout.freshNew with
    m_name := lay.m_name
    m_dataType := getDataType lay.m_dataType
    m_numElements := lay.m_numElements }

/-- Managed `ValueBuffer<ElemType>` (source lines 48-93): three parallel
backing arrays and the stored size field. -/
structure ValueBuffer (E : Type) where
  m_size : Nat
  m_buffer : List E
  m_indices : List Int
  m_colIndices : List Int
deriving DecidableEq

/-- The `ValueBuffer(int size)` constructor (source lines 52-58):
`gcnew array<ElemType>(size)` etc. allocate zero-initialised arrays of
length `size` for all three backing arrays and store `size` in `m_size`. -/
def ValueBuffer.ofSize (E : Type) [Inhabited E] (size : Nat) : ValueBuffer E :=
  { m_size := size
    m_buffer := List.replicate size default
    m_indices := List.replicate size 0
    m_colIndices := List.replicate size 0 }

/-- Managed exceptions observable from the wrapper: the disposed-object
exception, the typed CNTK exceptions, the CLR index-out-of-range exception
raised by managed array indexing, and a native C++ exception escaping the
interop boundary untranslated (no try/catch on the path), which the managed
caller sees only as an opaque SEH wrapper without the original payload. -/
inductive ManagedExc where
  | objectDisposedException (msg : String)
  | cntk (e : CNTKExc)
  | indexOutOfRangeException
  | nativeUnwrapped (ne : NativeExc)
deriving DecidableEq

/-- Whether a raised condition is a typed managed exception (as opposed to
a native exception escaping unwrapped across the interop boundary). -/
def ManagedExc.isTypedManaged : ManagedExc → Bool
  | .nativeUnwrapped _ => false
  | _ => true

/-- `VariableSchema::CreateBuffers()` (source lines 146-156): one buffer
per schema entry, sized by that entry's `m_numElements`. -/
def createBuffers (E : Type) [Inhabited E] (schema : List VariableLayout) :
    List (ValueBuffer E) :=
  schema.map fun l => ValueBuffer.ofSize E l.m_numElements

/-- `VariableSchema::CreateBuffers(List<int>^ maxLengths)` (source lines
128-143): first the length check, which throws
`CNTKRuntimeException("Expected max lengths for all variables.", "")` on
mismatch before any buffer is allocated; then one buffer per entry, sized
`m_numElements * maxLengths[i]`. -/
def createBuffersWithMaxLengths (E : Type) [Inhabited E]
    (schema : List VariableLayout) (maxLengths : List Nat) :
    Except ManagedExc (List (ValueBuffer E)) :=
  if maxLengths.length ≠ schema.length then
    .error (.cntk (.cntkRuntimeException "Expected max lengths for all variables." ""))
  else
    .ok (List.zipWith (fun l m => ValueBuffer.ofSize E (l.m_numElements * m))
          schema maxLengths)

/-- One call the wrapper makes into the native engine.  The wrapper's
observable effect on the native side is the sequence of such calls. -/
inductive NativeCall where
  | createNetwork (desc : String)
  | getInputSchema
  | getOutputSchema
  | startForwardEvaluation (names : List String)
  | forwardPass
  | destroy
deriving DecidableEq

/-- Abstract behaviour of the native `IEvaluateModelExtended<ElemType>`
engine: what each native call returns or throws, the two schemas, and the
data the engine writes into the output buffers on a successful forward
pass.  The engine is an external collaborator; its behaviour is a
parameter of the model. -/
structure Engine (E : Type) where
  createNetworkResult : String → Option NativeExc
  inputSchemaList : List NativeVariableLayout
  outputSchemaList : List NativeVariableLayout
  startForwardResult : List String → Option NativeExc
  forwardResult : Option NativeExc
  forwardOutputData : List (List E)

/-- State of one `IEvaluateModelExtendedManaged` instance: the native
handle `m_eval` (null after disposal) and the log of native calls made so
far. -/
structure ShimState (E : Type) where
  m_eval : Option (Engine E)
  log : List NativeCall

/-- `IEvaluateModelExtendedManaged::CreateNetwork` (source lines 194-212):
disposed check first, then marshal the description, call the native
`CreateNetwork` and translate any native std exception through
`GetCustomException`. -/
def createNetwork (E : Type) (st : ShimState E) (desc : String) :
    Except ManagedExc Unit × ShimState E :=
  match st.m_eval with
  | none => (.error (.objectDisposedException "Object has been disposed."), st)
  | some eng =>
    let st1 : ShimState E := { st with log := st.log ++ [.createNetwork desc] }
    match eng.createNetworkResult desc with
    | some ne => (.error (.cntk (getCustomException ne)), st1)
    | none => (.ok (), st1)

/-- `IEvaluateModelExtendedManaged::GetOutputSchema` (source lines
218-238): disposed check, native query, then per-entry conversion via
`convertLayout`, preserving order. -/
def getOutputSchema (E : Type) (st : ShimState E) :
    Except ManagedExc (List VariableLayout) × ShimState E :=
  match st.m_eval with
  | none => (.error (.objectDisposedException "Object has been disposed."), st)
  | some eng =>
    (.ok (eng.outputSchemaList.map convertLayout),
     { st with log := st.log ++ [.getOutputSchema] })

/-- `IEvaluateModelExtendedManaged::GetInputSchema` (source lines 265-285):
disposed check, native query, then per-entry conversion via
`convertLayout`, preserving order. -/
def getInputSchema (E : Type) (st : ShimState E) :
    Except ManagedExc (List VariableLayout) × ShimState E :=
  match st.m_eval with
  | none => (.error (.objectDisposedException "Object has been disposed."), st)
  | some eng =>
    (.ok (eng.inputSchemaList.map convertLayout),
     { st with log := st.log ++ [.getInputSchema] })

/-- `IEvaluateModelExtendedManaged::StartForwardEvaluation` (source lines
244-260): disposed check, marshal the output names, then call the native
`StartForwardEvaluation` with NO surrounding try/catch — unlike
`CreateNetwork` and `ForwardPass`, a native std exception thrown here is
not routed through `GetCustomException` and escapes the interop boundary
untranslated. -/
def startForwardEvaluation (E : Type) (st : ShimState E)
    (outputs : List String) : Except ManagedExc Unit × ShimState E :=
  match st.m_eval with
  | none => (.error (.objectDisposedException "Object has been disposed."), st)
  | some eng =>
    let st1 : ShimState E :=
      { st with log := st.log ++ [.startForwardEvaluation outputs] }
    match eng.startForwardResult outputs with
    | some ne => (.error (.nativeUnwrapped ne), st1)
    | none => (.ok (), st1)

/-- The pinning prologue of `ForwardPass` for one buffer (source lines
313-315 / 324-326): `&(item->m_buffer[0])`, `&(item->m_indices[0])`,
`&(item->m_colIndices[0])` — managed array indexing, which raises
`IndexOutOfRangeException` when the array is empty.  Returns `true` when
all three accesses are in bounds. -/
def pinOk (E : Type) (b : ValueBuffer E) : Bool :=
  !b.m_buffer.isEmpty && !b.m_indices.isEmpty && !b.m_colIndices.isEmpty

/-- Overwriting a prefix of caller-owned memory through a pinned pointer of
fixed extent: the first `data.length` cells (clipped to the array's length)
take the written values, the rest keep their contents; the length never
changes. -/
def overwriteFront (E : Type) (orig data : List E) : List E :=
  data.take orig.length ++ orig.drop data.length

/-- The engine writing its forward-pass results directly into the
caller-owned output buffers (positionally, through the pinned pointers):
buffer `i` receives the engine's `i`-th output data list. -/
def writeForwardOutputs (E : Type) :
    List (ValueBuffer E) → List (List E) → List (ValueBuffer E)
  | [], _ => []
  | b :: bs, [] => b :: writeForwardOutputs E bs []
  | b :: bs, d :: ds =>
    { b with m_buffer := overwriteFront E b.m_buffer d } ::
      writeForwardOutputs E bs ds

/-- `IEvaluateModelExtendedManaged::ForwardPass` (source lines 297-346):
disposed check; then the input loop pins element 0 of all three arrays of
every input buffer, then the output loop does the same for every output
buffer; only after both loops does the native `ForwardPass` run, with its
std exceptions translated through `GetCustomException`.  An empty backing
array makes the pinning index raise `IndexOutOfRangeException` before the
native engine is invoked (the outer `catch (Exception^)` merely
rethrows). -/
def forwardPass (E : Type) (st : ShimState E)
    (inputs outputs : List (ValueBuffer E)) :
    Except ManagedExc (List (ValueBuffer E)) × ShimState E :=
  match st.m_eval with
  | none => (.error (.objectDisposedException "Object has been disposed."), st)
  | some eng =>
    if !(inputs.all (pinOk E)) then
      (.error .indexOutOfRangeException, st)
    else if !(outputs.all (pinOk E)) then
      (.error .indexOutOfRangeException, st)
    else
      let st1 : ShimState E := { st with log := st.log ++ [.forwardPass] }
      match eng.forwardResult with
      | some ne => (.error (.cntk (getCustomException ne)), st1)
      | none => (.ok (writeForwardOutputs E outputs eng.forwardOutputData), st1)

/-- The finalizer `!IEvaluateModelExtendedManaged` (source lines 359-366):
when the handle is non-null, call the native `Destroy()` and null the
handle; otherwise do nothing. -/
def finalizeShim (E : Type) (st : ShimState E) : ShimState E :=
  match st.m_eval with
  | none => st
  | some _ => { m_eval := none, log := st.log ++ [.destroy] }

/-- The destructor `~IEvaluateModelExtendedManaged` (source lines 348-356),
i.e. `Dispose()`: return immediately when the handle is already null, else
run the finalizer.  No statement on this path can throw. -/
def dispose (E : Type) (st : ShimState E) : ShimState E :=
  match st.m_eval with
  | none => st
  | some _ => finalizeShim E st

/-- Environment of the constructor `IEvaluateModelExtendedManaged(String^)`
(source lines 168-190): whether `LoadLibrary("evaldll.dll")` succeeds,
whether `GetProcAddress` resolves the factory symbol, and what the factory
does when actually invoked (throws a native std exception, or produces an
engine). -/
structure LoadEnv (E : Type) where
  libraryLoads : Bool
  symbolResolves : Bool
  factoryThrows : Option NativeExc
  engine : Engine E

/-- Outcome of running the constructor: a live instance, a raised managed
exception, or a crash (undefined behaviour that no managed handler sees,
such as a call through a null function pointer). -/
inductive ConstructOutcome (E : Type) where
  | ok (st : ShimState E)
  | raised (e : ManagedExc)
  | crash

/-- The constructor `IEvaluateModelExtendedManaged(String^ funcName)`
(source lines 168-190): if `LoadLibrary` fails, throw
`CNTKException("Cannot find library: ...")`; the result of
`GetProcAddress` is NOT checked — when the symbol does not resolve, the
null function pointer is invoked, which is a crash, not an exception a
managed handler sees; when the factory itself throws a native std
exception, the `catch (const exception&)` wraps it as a plain
`CNTKException` carrying `ex.what()`. -/
def construct (E : Type) (env : LoadEnv E) : ConstructOutcome E :=
  if env.libraryLoads = false then
    .raised (.cntk (.cntkException "Cannot find library: evaldll.dll"))
  else if env.symbolResolves = false then
    .crash
  else
    match env.factoryThrows with
    | some ne => .raised (.cntk (.cntkException ne.what))
    | none => .ok { m_eval := some env.engine, log := [] }

/-- Whether a constructor outcome is a raised (managed-visible)
exception. -/
def ConstructOutcome.isRaised (E : Type) : ConstructOutcome E → Bool
  | .raised _ => true
  | _ => false

end EvalWrapper

namespace EvalWrapper

/-! Helper lemmas shared by the claim theorems. -/

/-- The pinning prologue fails for a buffer whose value array is empty. -/
theorem pinOk_false_of_empty (E : Type) (b : ValueBuffer E)
    (he : b.m_buffer = []) : pinOk E b = false := by
  simp [pinOk, he]

/-- A list containing a buffer with an empty value array does not pass the
pinning prologue. -/
theorem all_pinOk_false_of_mem (E : Type) (l : List (ValueBuffer E))
    (b : ValueBuffer E) (hb : b ∈ l) (he : b.m_buffer = []) :
    l.all (pinOk E) = false := by
  cases hall : l.all (pinOk E) with
  | false => rfl
  | true =>
    exact absurd (List.all_eq_true.mp hall b hb)
      (by simp [pinOk_false_of_empty E b he])

/-- Writing through a pinned pointer of fixed extent preserves the array
length. -/
theorem overwriteFront_length (E : Type) (orig data : List E) :
    (overwriteFront E orig data).length = orig.length := by
  simp [overwriteFront]
  omega

/-- The engine's in-place writes preserve size fields and all three array
lengths of every output buffer. -/
theorem writeForwardOutputs_shape (E : Type) (outs : List (ValueBuffer E))
    (datas : List (List E)) :
    (writeForwardOutputs E outs datas).map
        (fun b => (b.m_size, b.m_buffer.length, b.m_indices.length,
                   b.m_colIndices.length)) =
      outs.map (fun b => (b.m_size, b.m_buffer.length, b.m_indices.length,
                          b.m_colIndices.length)) := by
  induction outs generalizing datas with
  | nil => cases datas <;> rfl
  | cons b bs ih =>
    cases datas with
    | nil => simp [writeForwardOutputs, ih]
    | cons d ds => simp [writeForwardOutputs, ih, overwriteFront_length]

/-- Disposal of an already-disposed instance is a no-op. -/
theorem dispose_of_none (E : Type) (st : ShimState E)
    (h : st.m_eval = none) : dispose E st = st := by
  obtain ⟨me, lg⟩ := st
  simp only at h
  subst h
  rfl

/-- Disposal of a live instance nulls the handle and performs exactly one
native `Destroy()` call. -/
theorem dispose_of_some (E : Type) (st : ShimState E) (eng : Engine E)
    (h : st.m_eval = some eng) :
    dispose E st = { m_eval := none, log := st.log ++ [.destroy] } := by
  obtain ⟨me, lg⟩ := st
  simp only at h
  subst h
  rfl

/-! Concrete fixtures used by witnesses and counterexamples. -/

/-- A native engine whose calls all succeed and whose schemas are empty. -/
def engTriv : Engine Int :=
  { createNetworkResult := fun _ => none
    inputSchemaList := []
    outputSchemaList := []
    startForwardResult := fun _ => none
    forwardResult := none
    forwardOutputData := [] }

/-- A live wrapper state over the trivial engine. -/
def liveState : ShimState Int := { m_eval := some engTriv, log := [] }

/-- A disposed wrapper state (null handle). -/
def disposedState : ShimState Int := { m_eval := none, log := [] }

/-- An engine whose output schema has one entry with `Dense` storage. -/
def engDense : Engine Int :=
  { createNetworkResult := fun _ => none
    inputSchemaList := []
    outputSchemaList :=
      [{ m_name := "x", m_dataType := .Float32,
         m_storageType := .Dense, m_numElements := 4 }]
    startForwardResult := fun _ => none
    forwardResult := none
    forwardOutputData := [] }

/-- An engine whose native `StartForwardEvaluation` throws an
`ExceptionWithCallStack<runtime_error>`. -/
def engThrowStart : Engine Int :=
  { createNetworkResult := fun _ => none
    inputSchemaList := []
    outputSchemaList := []
    startForwardResult := fun _ =>
      some (.ewcsRuntimeError "network has not been created" "stack")
    forwardResult := none
    forwardOutputData := [] }

/-- A constructor environment where the library loads but the factory
symbol does not resolve. -/
def envMissingSymbol : LoadEnv Int :=
  { libraryLoads := true
    symbolResolves := false
    factoryThrows := none
    engine := engTriv }

/-- A constructor environment where the library fails to load. -/
def envNoLibrary : LoadEnv Int :=
  { libraryLoads := false
    symbolResolves := true
    factoryThrows := none
    engine := engTriv }

/-- Two concrete schema entries. -/
def layA : VariableLayout :=
  { m_name := "a", m_dataType := .Float32,
    m_storageType := .Undetermined, m_numElements := 3 }

/-- Second concrete schema entry. -/
def layB : VariableLayout :=
  { m_name := "b", m_dataType := .Float64,
    m_storageType := .Undetermined, m_numElements := 2 }

/-- C2: the exception-translation function maps each native exception
category to its documented managed kind (runtime, logic, invalid-argument,
out-of-memory, generic fallback), preserves the original `what()` message
verbatim, and attaches the native call-stack string exactly when the native
exception type carries one.  The `typeid`-exact dispatch makes the most
specific kind win: each category hits exactly one branch. -/
theorem getCustomException_translation (e : NativeExc) :
    (getCustomException e).kind = e.documentedKind ∧
    (getCustomException e).message = e.what ∧
    (getCustomException e).callStack = e.carriedCallStack := by
  cases e <;>
    simp [getCustomException, CNTKExc.kind, NativeExc.documentedKind,
      CNTKExc.message, NativeExc.what, CNTKExc.callStack,
      NativeExc.carriedCallStack]

/-- C1: on a disposed instance (null handle), CreateNetwork,
GetInputSchema, GetOutputSchema, StartForwardEvaluation and ForwardPass
all fail with the disposed-object exception, for all argument values, and
leave the state (in particular the native-call log) unchanged — no other
effect is performed. -/
theorem disposed_operations_fail (E : Type) (st : ShimState E)
    (h : st.m_eval = none) (desc : String) (names : List String)
    (inputs outputs : List (ValueBuffer E)) :
    createNetwork E st desc =
      (.error (.objectDisposedException "Object has been disposed."), st) ∧
    getInputSchema E st =
      (.error (.objectDisposedException "Object has been disposed."), st) ∧
    getOutputSchema E st =
      (.error (.objectDisposedException "Object has been disposed."), st) ∧
    startForwardEvaluation E st names =
      (.error (.objectDisposedException "Object has been disposed."), st) ∧
    forwardPass E st inputs outputs =
      (.error (.objectDisposedException "Object has been disposed."), st) := by
  obtain ⟨me, lg⟩ := st
  simp only at h
  subst h
  exact ⟨rfl, rfl, rfl, rfl, rfl⟩

/-- Witness for C1 at a concrete disposed state and concrete arguments. -/
theorem disposed_operations_fail_witness :
    disposedState.m_eval = none ∧
    (createNetwork Int disposedState "net" =
      (.error (.objectDisposedException "Object has been disposed."),
       disposedState) ∧
    getInputSchema Int disposedState =
      (.error (.objectDisposedException "Object has been disposed."),
       disposedState) ∧
    getOutputSchema Int disposedState =
      (.error (.objectDisposedException "Object has been disposed."),
       disposedState) ∧
    startForwardEvaluation Int disposedState ["o"] =
      (.error (.objectDisposedException "Object has been disposed."),
       disposedState) ∧
    forwardPass Int disposedState [] [] =
      (.error (.objectDisposedException "Object has been disposed."),
       disposedState)) :=
  ⟨rfl, disposed_operations_fail Int disposedState rfl "net" ["o"] [] []⟩

/-- C3 (code bug): the schema conversion loop assigns `m_name`,
`m_dataType` and `m_numElements` but never `m_storageType`, so on a native
output entry with `Dense` storage the managed entry reports the default
`Undetermined` — the storage kind of the native entry is not preserved
(the `GetStorageType` helper exists in the source but is dead code). -/
theorem getOutputSchema_storageType_not_copied :
    (getOutputSchema Int { m_eval := some engDense, log := [] }).1 =
      .ok [{ m_name := "x", m_dataType := .Float32,
             m_storageType := .Undetermined, m_numElements := 4 }] ∧
    engDense.outputSchemaList.map NativeVariableLayout.m_storageType =
      [.Dense] ∧
    ManagedStorageType.Undetermined ≠ ManagedStorageType.Dense :=
  ⟨rfl, rfl, by decide⟩

/-- C4 counterexample: with the library loaded but the factory symbol
unresolved, the constructor invokes the null function pointer — a crash,
not a raised typed exception — so the claim that symbol-resolution failure
raises a load-error exception is false. -/
theorem construct_missing_symbol_crashes :
    construct Int envMissingSymbol = ConstructOutcome.crash ∧
    ConstructOutcome.isRaised Int (construct Int envMissingSymbol) = false :=
  ⟨rfl, rfl⟩

/-- C4 (amended): construction raises the load-error `CNTKException` when
the library cannot be loaded and a `CNTKException` wrapping the original
message when the resolved factory throws; when the symbol cannot be
resolved the unchecked null factory pointer is invoked, a crash rather
than a typed exception. -/
theorem construct_failure_modes (E : Type) (env : LoadEnv E) :
    (env.libraryLoads = false →
      construct E env =
        .raised (.cntk (.cntkException "Cannot find library: evaldll.dll"))) ∧
    (env.libraryLoads = true → env.symbolResolves = false →
      construct E env = .crash) ∧
    (∀ ne, env.libraryLoads = true → env.symbolResolves = true →
      env.factoryThrows = some ne →
      construct E env = .raised (.cntk (.cntkException ne.what))) ∧
    (env.libraryLoads = true → env.symbolResolves = true →
      env.factoryThrows = none →
      construct E env = .ok { m_eval := some env.engine, log := [] }) := by
  obtain ⟨ll, sr, ft, eng⟩ := env
  refine ⟨?_, ?_, ?_, ?_⟩
  · intro h
    simp only at h
    subst h
    rfl
  · intro h1 h2
    simp only at h1 h2
    subst h1
    subst h2
    rfl
  · intro ne h1 h2 h3
    simp only at h1 h2 h3
    subst h1
    subst h2
    subst h3
    rfl
  · intro h1 h2 h3
    simp only at h1 h2 h3
    subst h1
    subst h2
    subst h3
    rfl

/-- Witness for C4's amended theorem: the library-load failure branch at a
concrete environment. -/
theorem construct_failure_modes_witness :
    envNoLibrary.libraryLoads = false ∧
    construct Int envNoLibrary =
      .raised (.cntk (.cntkException "Cannot find library: evaldll.dll")) :=
  ⟨rfl, (construct_failure_modes Int envNoLibrary).1 rfl⟩

/-- C5 (code bug): a native `ExceptionWithCallStack<runtime_error>` thrown
by the engine during StartForwardEvaluation is not routed through
`GetCustomException` (the call has no try/catch, unlike CreateNetwork and
ForwardPass) and escapes the interop boundary untranslated, so the caller
does not receive a typed managed exception carrying the original
message. -/
theorem startForwardEvaluation_native_escape :
    (startForwardEvaluation Int { m_eval := some engThrowStart, log := [] }
        ["out"]).1 =
      .error (.nativeUnwrapped
        (.ewcsRuntimeError "network has not been created" "stack")) ∧
    ManagedExc.isTypedManaged
      (.nativeUnwrapped
        (.ewcsRuntimeError "network has not been created" "stack")) = false :=
  ⟨rfl, rfl⟩

/-- C6: `CreateBuffers()` on a schema of K entries returns exactly K
buffers whose i-th size is the i-th entry's element count, and
`CreateBuffers(maxLengths)` with a matching-length list returns exactly K
buffers whose i-th size is the product of the i-th element count and the
i-th maximum length. -/
theorem createBuffers_sizes (E : Type) [Inhabited E]
    (schema : List VariableLayout) (maxLengths : List Nat)
    (h : maxLengths.length = schema.length) :
    (createBuffers E schema).length = schema.length ∧
    (createBuffers E schema).map ValueBuffer.m_size =
      schema.map VariableLayout.m_numElements ∧
    ∃ bufs, createBuffersWithMaxLengths E schema maxLengths = .ok bufs ∧
      bufs.length = schema.length ∧
      bufs.map ValueBuffer.m_size =
        List.zipWith (fun l m => l.m_numElements * m) schema maxLengths := by
  refine ⟨by simp [createBuffers], ?_, ?_⟩
  · simp [createBuffers, ValueBuffer.ofSize]
  · refine ⟨List.zipWith (fun l m => ValueBuffer.ofSize E (l.m_numElements * m))
      schema maxLengths, ?_, ?_, ?_⟩
    · simp [createBuffersWithMaxLengths, h]
    · rw [List.length_zipWith]
      omega
    · rw [List.map_zipWith]
      simp [ValueBuffer.ofSize]

/-- Witness for C6 at a concrete two-entry schema. -/
theorem createBuffers_sizes_witness :
    ([5, 7] : List Nat).length = [layA, layB].length ∧
    ((createBuffers Int [layA, layB]).length = [layA, layB].length ∧
    (createBuffers Int [layA, layB]).map ValueBuffer.m_size =
      [layA, layB].map VariableLayout.m_numElements ∧
    ∃ bufs, createBuffersWithMaxLengths Int [layA, layB] [5, 7] = .ok bufs ∧
      bufs.length = [layA, layB].length ∧
      bufs.map ValueBuffer.m_size =
        List.zipWith (fun l m => l.m_numElements * m) [layA, layB] [5, 7]) :=
  ⟨rfl, createBuffers_sizes Int [layA, layB] [5, 7] rfl⟩

/-- C7: `CreateBuffers(maxLengths)` with a list whose length differs from
the schema's raises the typed `CNTKRuntimeException` and produces no
buffers — the length check precedes the allocation loop in the source. -/
theorem createBuffers_mismatch_raises (E : Type) [Inhabited E]
    (schema : List VariableLayout) (maxLengths : List Nat)
    (h : maxLengths.length ≠ schema.length) :
    createBuffersWithMaxLengths E schema maxLengths =
      .error (.cntk (.cntkRuntimeException
        "Expected max lengths for all variables." "")) := by
  simp [createBuffersWithMaxLengths, h]

/-- Witness for C7: a one-entry schema with an empty max-lengths list. -/
theorem createBuffers_mismatch_raises_witness :
    ([] : List Nat).length ≠ [layA].length ∧
    createBuffersWithMaxLengths Int [layA] [] =
      .error (.cntk (.cntkRuntimeException
        "Expected max lengths for all variables." "")) :=
  ⟨by decide, createBuffers_mismatch_raises Int [layA] [] (by decide)⟩

/-- C8: teardown is idempotent — from a live instance, iterating the
destructor any N ≥ 1 times nulls the handle and appends exactly one
`Destroy()` call to the native-call log (the handle is cleared on the
first release, so later invocations are no-ops); the destructor path is a
total function, raising nothing. -/
theorem dispose_idempotent (E : Type) (st : ShimState E) (eng : Engine E)
    (h : st.m_eval = some eng) (n : Nat) (hn : 1 ≤ n) :
    ((dispose E)^[n] st).m_eval = none ∧
    ((dispose E)^[n] st).log = st.log ++ [NativeCall.destroy] := by
  induction n with
  | zero => omega
  | succ m ih =>
    rw [Function.iterate_succ_apply']
    rcases Nat.eq_zero_or_pos m with h0 | hpos
    · subst h0
      simp only [Function.iterate_zero_apply]
      rw [dispose_of_some E st eng h]
      exact ⟨rfl, rfl⟩
    · obtain ⟨h1, h2⟩ := ih hpos
      rw [dispose_of_none E _ h1]
      exact ⟨h1, h2⟩

/-- Witness for C8: three disposals of a concrete live instance destroy
the engine exactly once. -/
theorem dispose_idempotent_witness :
    liveState.m_eval = some engTriv ∧ 1 ≤ 3 ∧
    (((dispose Int)^[3] liveState).m_eval = none ∧
     ((dispose Int)^[3] liveState).log =
       liveState.log ++ [NativeCall.destroy]) :=
  ⟨rfl, by omega, dispose_idempotent Int liveState engTriv rfl 3 (by omega)⟩

/-- C9: a `ValueBuffer` constructed with size s has all three backing
arrays of length s and stored size s, and the only wrapper operation that
touches buffer contents (the forward pass writing results through pinned
pointers) preserves every buffer's size field and all three array
lengths — nothing is grown or reallocated. -/
theorem valueBuffer_arrays_invariant (E : Type) [Inhabited E] (size : Nat)
    (outs : List (ValueBuffer E)) (datas : List (List E)) :
    (ValueBuffer.ofSize E size).m_buffer.length = size ∧
    (ValueBuffer.ofSize E size).m_indices.length = size ∧
    (ValueBuffer.ofSize E size).m_colIndices.length = size ∧
    (ValueBuffer.ofSize E size).m_size = size ∧
    (writeForwardOutputs E outs datas).map
        (fun b => (b.m_size, b.m_buffer.length, b.m_indices.length,
                   b.m_colIndices.length)) =
      outs.map (fun b => (b.m_size, b.m_buffer.length, b.m_indices.length,
                          b.m_colIndices.length)) := by
  refine ⟨?_, ?_, ?_, rfl, writeForwardOutputs_shape E outs datas⟩ <;>
    simp [ValueBuffer.ofSize]

/-- C10: on a live instance, if any buffer in the inputs or outputs passed
to ForwardPass has an empty value array (as a size-0 buffer has), the call
fails with the untyped `IndexOutOfRangeException` from the pinning
prologue's element-0 access, the state is unchanged and no `forwardPass`
entry is logged — the native engine is not invoked. -/
theorem forwardPass_empty_buffer_raises (E : Type) (st : ShimState E)
    (eng : Engine E) (h : st.m_eval = some eng)
    (inputs outputs : List (ValueBuffer E)) (b : ValueBuffer E)
    (hb : b ∈ inputs ∨ b ∈ outputs) (he : b.m_buffer = []) :
    forwardPass E st inputs outputs =
      (.error .indexOutOfRangeException, st) := by
  obtain ⟨me, lg⟩ := st
  simp only at h
  subst h
  rcases hb with hi | ho
  · have hall := all_pinOk_false_of_mem E inputs b hi he
    simp [forwardPass, hall]
  · have hall := all_pinOk_false_of_mem E outputs b ho he
    cases hin : inputs.all (pinOk E) with
    | false => simp [forwardPass, hin]
    | true => simp [forwardPass, hin, hall]

/-- Witness for C10: a size-0 buffer among the inputs of a concrete live
instance. -/
theorem forwardPass_empty_buffer_raises_witness :
    liveState.m_eval = some engTriv ∧
    (ValueBuffer.ofSize Int 0).m_buffer = [] ∧
    forwardPass Int liveState [ValueBuffer.ofSize Int 0] [] =
      (.error .indexOutOfRangeException, liveState) :=
  ⟨rfl, rfl,
    forwardPass_empty_buffer_raises Int liveState engTriv rfl
      [ValueBuffer.ofSize Int 0] [] (ValueBuffer.ofSize Int 0)
      (Or.inl (List.mem_singleton.mpr rfl)) rfl⟩

end EvalWrapper
